import Mathlib

/-!
# Shallow embedding of weston's logind helper (src/logind-util.c)

This file models the session-arbitration client of `logind-util.c`:
the shared `session_active` flag and its change notification
(`weston_logind_set_active`), the Active-property parsing of replies and
`PropertiesChanged` signals (`parse_active`, `get_active_cb`,
`property_changed`), the asynchronous property query with its
single-pending-call discipline (`weston_logind_get_active`), the device
pause/resume handshake (`device_paused`, `device_resumed`,
`weston_logind_pause_device_complete`), device open/close with the
take/release-device lease protocol (`weston_logind_open`,
`weston_logind_close`), the VT-setup state machine with its unwind chain
(`weston_logind_setup_vt`) and the VT signal acknowledgment
(`signal_event`).

Modelling conventions:
* D-Bus and kernel interactions are externalized: message parsing outcomes
  arrive as `Option`-typed arguments (`none` = the corresponding
  `dbus_message_get_args` / iterator type-check failed, which the C code
  logs and ignores), and syscall/ioctl outcomes are fields of an
  environment record.  Emitted side effects (bus calls sent, ioctls
  issued, descriptors closed) are collected in lists, in program order.
* Message construction failure inside the fire-and-forget helpers
  (`dbus_message_new_method_call` returning NULL on out-of-memory) is
  abstracted for the device-lease helpers, since the bus transport is an
  external collaborator; for `weston_logind_get_active` the allocation
  and registration failures are modelled explicitly because the claimed
  pending-query invariant depends on those paths.
* The compositor's `session_active` field and `session_signal` emission
  live in the same record as the helper's own state.
-/

/-- DRM_MAJOR from logind-util.c. -/
def DRM_MAJOR : Nat := 226

/-- O_NONBLOCK on Linux (octal 04000). -/
def O_NONBLOCK : Nat := 2048

/-- KD_TEXT console mode. -/
def KD_TEXT : Nat := 0

/-- KD_GRAPHICS console mode. -/
def KD_GRAPHICS : Nat := 1

/-- K_UNICODE keyboard mode. -/
def K_UNICODE : Nat := 3

/-- K_OFF keyboard mode. -/
def K_OFF : Nat := 4

/-- VT_AUTO switch mode. -/
def VT_AUTO : Nat := 0

/-- VT_PROCESS switch mode. -/
def VT_PROCESS : Nat := 1

/-- VT_ACKACQ acknowledgment argument of VT_RELDISP. -/
def VT_ACKACQ : Nat := 2

/-- TTY_MAJOR from linux/major.h. -/
def TTY_MAJOR : Nat := 4

/-- The mutable state of `struct weston_logind` that the modelled handlers
touch, together with the compositor-side `session_active` flag and the list
of `session_signal` emissions (each entry is the value of `session_active`
at emission time). `cancelled_calls` records every pending call on which
`dbus_pending_call_cancel` + `unref` was invoked, identified by an abstract
id. -/
structure weston_logind where
  sync_drm : Bool
  session_active : Bool
  session_signals : List Bool
  pending_active : Option Nat
  cancelled_calls : List Nat
deriving DecidableEq, Repr

/-- `weston_logind_set_active` (logind-util.c:264-274): writes the shared
flag and emits `session_signal`, suppressing no-op writes via
`if (!wl->compositor->session_active == !active) return;`. -/
def weston_logind_set_active (wl : weston_logind) (active : Bool) :
    weston_logind :=
  if (!wl.session_active) = (!active) then wl
  else { wl with
          session_active := active,
          session_signals := wl.session_signals ++ [active] }

/-- `parse_active` (logind-util.c:276-297). The iterator argument is
modelled as `Option Bool`: `none` when the argument is not a variant
containing a boolean (the function returns without effect), `some b` when
a boolean `b` was extracted. With `sync_drm` set, the flag is only
forwarded when the value is false (`if (!wl->sync_drm || !b)`). -/
def parse_active (wl : weston_logind) (v : Option Bool) : weston_logind :=
  match v with
  | none => wl
  | some b => if !wl.sync_drm || !b then weston_logind_set_active wl b else wl

/-- `get_active_cb` (logind-util.c:299-320): unrefs and clears
`pending_active`, then parses the reply if it is a method return whose
iterator initializes. The reply is `Option (Option Bool)`: outer `none`
when `steal_reply` yields nothing or the message is not a parseable method
return, inner value as in `parse_active`. -/
def get_active_cb (wl : weston_logind) (reply : Option (Option Bool)) :
    weston_logind :=
  let wl := { wl with pending_active := none }
  match reply with
  | none => wl
  | some v => parse_active wl v

/-- Failure points of `weston_logind_get_active`
(logind-util.c:322-366): message allocation, argument marshalling, send
with reply, and notify registration. -/
structure GetActiveEnv where
  newCallOk : Bool
  appendOk : Bool
  sendOk : Bool
  setNotifyOk : Bool
deriving DecidableEq, Repr

/-- `weston_logind_get_active` (logind-util.c:322-366). `fresh` is the
abstract id of the pending call produced by
`dbus_connection_send_with_reply`. On notify-registration failure the new
call is cancelled and the old pending call is kept; on success any old
pending call is cancelled and the new one is stored. -/
def weston_logind_get_active (wl : weston_logind) (env : GetActiveEnv)
    (fresh : Nat) : weston_logind :=
  if !env.newCallOk then wl
  else if !env.appendOk then wl
  else if !env.sendOk then wl
  else if !env.setNotifyOk then
    { wl with cancelled_calls := wl.cancelled_calls ++ [fresh] }
  else
    match wl.pending_active with
    | some old =>
        { wl with
            pending_active := some fresh,
            cancelled_calls := wl.cancelled_calls ++ [old] }
    | none => { wl with pending_active := some fresh }

/-- A `PropertiesChanged` signal body (logind-util.c:399-455) after
successful shape checks: interface string, the changed-properties dict
(entry values already reduced as in `parse_active`), and the
invalidated-properties name list. A message failing the shape checks is
passed as `none` to `property_changed` (the walk mutates nothing before
the first `Active` hit, so entry-level malformation collapses to the same
observable no-op). -/
structure PropChangedMsg where
  interface : String
  changed : List (String × Option Bool)
  invalidated : List String
deriving DecidableEq, Repr

/-- The dict-entry walk of `property_changed`: first entry named "Active"
wins and its value is returned. -/
def findActive : List (String × Option Bool) → Option (Option Bool)
  | [] => none
  | (n, v) :: rest => if n = "Active" then some v else findActive rest

/-- `property_changed` (logind-util.c:398-455): if the changed dict
contains `Active` the value is parsed inline via `parse_active`; otherwise
if `Active` is in the invalidated list a fresh query is issued via
`weston_logind_get_active`. -/
def property_changed (wl : weston_logind) (env : GetActiveEnv) (fresh : Nat)
    (msg : Option PropChangedMsg) : weston_logind :=
  match msg with
  | none => wl
  | some msg =>
    match findActive msg.changed with
    | some v => parse_active wl v
    | none =>
      if "Active" ∈ msg.invalidated then weston_logind_get_active wl env fresh
      else wl

/-- Fire-and-forget bus calls sent by the device arbiter. -/
inductive BusCall where
  | takeDevice (major minor : Nat)
  | releaseDevice (major minor : Nat)
  | pauseDeviceComplete (major minor : Nat)
deriving DecidableEq, Repr

/-- `weston_logind_pause_device_complete` (logind-util.c:146-166): sends a
PauseDeviceComplete call for (major, minor). -/
def weston_logind_pause_device_complete (major minor : Nat) : List BusCall :=
  [BusCall.pauseDeviceComplete major minor]

/-- `device_paused` (logind-util.c:457-487). The parsed signal arguments
are `Option (Nat × Nat × String)` (`none` = parse failure, logged and
ignored). Returns the new state and the bus calls sent: kind "pause" is
acknowledged unconditionally; a DRM-major device with `sync_drm` set
additionally drives the active flag to false. -/
def device_paused (wl : weston_logind) (args : Option (Nat × Nat × String)) :
    weston_logind × List BusCall :=
  match args with
  | none => (wl, [])
  | some (major, minor, ty) =>
    let calls :=
      if ty = "pause" then weston_logind_pause_device_complete major minor
      else []
    let wl' :=
      if wl.sync_drm && major = DRM_MAJOR then weston_logind_set_active wl false
      else wl
    (wl', calls)

/-- `device_resumed` (logind-util.c:489-513). Only the major is read; a
DRM-major resume with `sync_drm` set drives the active flag to true. -/
def device_resumed (wl : weston_logind) (args : Option Nat) : weston_logind :=
  match args with
  | none => wl
  | some major =>
    if wl.sync_drm && major = DRM_MAJOR then weston_logind_set_active wl true
    else wl

/-- Result of `stat`/`fstat` on a path or descriptor: whether the target
is a character special file, and its device major/minor. -/
structure FileStat where
  isChr : Bool
  major : Nat
  minor : Nat
deriving DecidableEq, Repr

/-- Environment of `weston_logind_open` (logind-util.c:168-217): the
`stat` outcome, the fd returned by TakeDevice (`none` = call failed), the
`fcntl(F_GETFL)` outcome, and whether `fcntl(F_SETFL)` succeeds. -/
structure OpenEnv where
  statResult : Option FileStat
  takeDeviceFd : Option Nat
  getflResult : Option Nat
  setflOk : Bool
deriving DecidableEq, Repr

/-- Side effects of `weston_logind_open`, in program order. -/
inductive OpenEffect where
  | busTakeDevice (major minor : Nat)
  | setFlags (fd fl : Nat)
  | closeFd (fd : Nat)
  | busReleaseDevice (major minor : Nat)
deriving DecidableEq, Repr

/-- `weston_logind_open` (logind-util.c:168-217). Returns the descriptor
on success (`none` = error return) and the effects issued: stat failure
and non-character targets fail before any bus call; after a successful
TakeDevice, `F_GETFL`/`F_SETFL` failure closes the fd and sends
ReleaseDevice; on success only `O_NONBLOCK` is (possibly) ORed into the
existing flags (`if (flags & O_NONBLOCK) fl |= O_NONBLOCK`). -/
def weston_logind_open (env : OpenEnv) (flags : Nat) :
    Option Nat × List OpenEffect :=
  match env.statResult with
  | none => (none, [])
  | some st =>
    if st.isChr = false then (none, [])
    else
      match env.takeDeviceFd with
      | none => (none, [OpenEffect.busTakeDevice st.major st.minor])
      | some fd =>
        match env.getflResult with
        | none =>
            (none, [OpenEffect.busTakeDevice st.major st.minor,
                    OpenEffect.closeFd fd,
                    OpenEffect.busReleaseDevice st.major st.minor])
        | some fl =>
          let fl' := if flags &&& O_NONBLOCK ≠ 0 then fl ||| O_NONBLOCK else fl
          if env.setflOk then
            (some fd, [OpenEffect.busTakeDevice st.major st.minor,
                       OpenEffect.setFlags fd fl'])
          else
            (none, [OpenEffect.busTakeDevice st.major st.minor,
                    OpenEffect.setFlags fd fl',
                    OpenEffect.closeFd fd,
                    OpenEffect.busReleaseDevice st.major st.minor])

/-- `weston_logind_close` (logind-util.c:219-238). The `fstat` outcome is
`Option FileStat`; returns the bus calls sent: nothing when fstat fails or
the fd is not a character device (both only logged), otherwise one
ReleaseDevice for the fd's major/minor. -/
def weston_logind_close (fstatResult : Option FileStat) : List BusCall :=
  match fstatResult with
  | none => []
  | some st =>
    if st.isChr = false then []
    else [BusCall.releaseDevice st.major st.minor]

/-- VT ioctls issued by `signal_event` (logind-util.c:676-693). -/
inductive SigEffect where
  | vtReldisp (fd arg : Nat)
deriving DecidableEq, Repr

/-- `signal_event` (logind-util.c:676-693). `readResult` is the signal
number read from the signalfd (`none` = short read, logged and ignored).
SIGRTMIN acknowledges the release with `VT_RELDISP, 1`; SIGRTMIN+1
acknowledges the acquire with `VT_RELDISP, VT_ACKACQ`. -/
def signal_event (vt sigrtmin : Nat) (readResult : Option Nat) :
    List SigEffect :=
  match readResult with
  | none => []
  | some signo =>
    if signo = sigrtmin then [SigEffect.vtReldisp vt 1]
    else if signo = sigrtmin + 1 then [SigEffect.vtReldisp vt VT_ACKACQ]
    else []

/-- Environment of `weston_logind_setup_vt` (logind-util.c:695-816): the
VT open outcome, the `fstat` outcome (`none` = failure; major/minor of
the node otherwise), the `KDGKBMODE` read, the outcomes of the mute and
K_OFF fallback ioctls, the `KDSETMODE KD_GRAPHICS` ioctl, the runtime
SIGRTMIN/SIGRTMAX values, the signalfd creation, the event-source
registration, and the `VT_SETMODE` ioctl. -/
structure VtEnv where
  openFd : Option Nat
  fstatResult : Option (Nat × Nat)
  kdgkbmodeResult : Option Nat
  kdskbmuteOk : Bool
  kdskbmodeOffOk : Bool
  kdsetmodeGraphicsOk : Bool
  sigrtmin : Nat
  sigrtmax : Nat
  signalfdFd : Option Nat
  addSourceOk : Bool
  vtSetmodeOk : Bool
deriving DecidableEq, Repr

/-- Side effects of VT setup/teardown, in program order. -/
inductive VtEffect where
  | kdSetMode (fd mode : Nat)
  | kdSkbMute (fd v : Nat)
  | kdSkbMode (fd mode : Nat)
  | vtSetMode (fd mode relsig acqsig : Nat)
  | removeSource
  | closeFd (fd : Nat)
deriving DecidableEq, Repr

/-- Error exits of `weston_logind_setup_vt`, one per failing step. -/
inductive VtErr where
  | openFailed
  | notAVt
  | kbModeFailed
  | graphicsFailed
  | rtSignals
  | signalfdFailed
  | sourceFailed
  | setModeFailed
deriving DecidableEq, Repr

/-- `weston_logind_setup_vt` (logind-util.c:695-816). On success returns
(vt fd, saved kb_mode, signalfd fd). The effect list records every ioctl
attempted and every close, in order, including the unwind chain
`err_sfd_source`/`err_sfd`/`err_mode`/`err_kbmode`/`err_close`. Note the
RT-signal-range check (lines 764-768) returns `-EINVAL` directly without
entering the unwind chain. -/
def weston_logind_setup_vt (env : VtEnv) :
    Except VtErr (Nat × Nat × Nat) × List VtEffect :=
  match env.openFd with
  | none => (.error .openFailed, [])
  | some vt =>
    match env.fstatResult with
    | none => (.error .notAVt, [VtEffect.closeFd vt])
    | some (maj, min) =>
      if ¬(maj = TTY_MAJOR ∧ 0 < min ∧ min < 64) then
        (.error .notAVt, [VtEffect.closeFd vt])
      else
        let kb_mode :=
          match env.kdgkbmodeResult with
          | none => K_UNICODE
          | some m => if m = K_OFF then K_UNICODE else m
        let muteEffs :=
          if env.kdskbmuteOk then [VtEffect.kdSkbMute vt 1]
          else [VtEffect.kdSkbMute vt 1, VtEffect.kdSkbMode vt K_OFF]
        if ¬env.kdskbmuteOk ∧ ¬env.kdskbmodeOffOk then
          (.error .kbModeFailed, muteEffs ++ [VtEffect.closeFd vt])
        else if ¬env.kdsetmodeGraphicsOk then
          (.error .graphicsFailed,
            muteEffs ++ [VtEffect.kdSetMode vt KD_GRAPHICS,
                         VtEffect.kdSkbMute vt 0,
                         VtEffect.kdSkbMode vt kb_mode,
                         VtEffect.closeFd vt])
        else if env.sigrtmin + 1 > env.sigrtmax then
          (.error .rtSignals,
            muteEffs ++ [VtEffect.kdSetMode vt KD_GRAPHICS])
        else
          match env.signalfdFd with
          | none =>
              (.error .signalfdFailed,
                muteEffs ++ [VtEffect.kdSetMode vt KD_GRAPHICS,
                             VtEffect.kdSetMode vt KD_TEXT,
                             VtEffect.kdSkbMute vt 0,
                             VtEffect.kdSkbMode vt kb_mode,
                             VtEffect.closeFd vt])
          | some sfd =>
            if ¬env.addSourceOk then
              (.error .sourceFailed,
                muteEffs ++ [VtEffect.kdSetMode vt KD_GRAPHICS,
                             VtEffect.closeFd sfd,
                             VtEffect.kdSetMode vt KD_TEXT,
                             VtEffect.kdSkbMute vt 0,
                             VtEffect.kdSkbMode vt kb_mode,
                             VtEffect.closeFd vt])
            else if ¬env.vtSetmodeOk then
              (.error .setModeFailed,
                muteEffs ++ [VtEffect.kdSetMode vt KD_GRAPHICS,
                             VtEffect.vtSetMode vt VT_PROCESS env.sigrtmin
                               (env.sigrtmin + 1),
                             VtEffect.removeSource,
                             VtEffect.closeFd sfd,
                             VtEffect.kdSetMode vt KD_TEXT,
                             VtEffect.kdSkbMute vt 0,
                             VtEffect.kdSkbMode vt kb_mode,
                             VtEffect.closeFd vt])
            else
              (.ok (vt, kb_mode, sfd),
                muteEffs ++ [VtEffect.kdSetMode vt KD_GRAPHICS,
                             VtEffect.vtSetMode vt VT_PROCESS env.sigrtmin
                               (env.sigrtmin + 1)])

/-- Folding a sequence of active-state writes through
`weston_logind_set_active`. -/
def applyActiveWrites (wl : weston_logind) : List Bool → weston_logind
  | [] => wl
  | b :: rest => applyActiveWrites (weston_logind_set_active wl b) rest

/-- Specification-side characterization of the notifications a write
sequence should produce: one entry per logical transition, no-op writes
suppressed (taken from the spec's wording, to be compared with
`applyActiveWrites`). -/
def specTransitions (cur : Bool) : List Bool → List Bool
  | [] => []
  | b :: rest => if b = cur then specTransitions cur rest
                 else b :: specTransitions b rest

lemma set_active_char (wl : weston_logind) (b : Bool) :
    weston_logind_set_active wl b =
      if wl.session_active = b then wl
      else { wl with session_active := b,
                     session_signals := wl.session_signals ++ [b] } := by
  obtain ⟨sd, sa, ss, pa, cc⟩ := wl
  cases sa <;> cases b <;> simp [weston_logind_set_active]

lemma applyActiveWrites_signals (ws : List Bool) : ∀ wl : weston_logind,
    (applyActiveWrites wl ws).session_signals
      = wl.session_signals ++ specTransitions wl.session_active ws := by
  induction ws with
  | nil => intro wl; simp [applyActiveWrites, specTransitions]
  | cons b rest ih =>
    intro wl
    by_cases hb : wl.session_active = b
    · have h1 : weston_logind_set_active wl b = wl := by
        rw [set_active_char, if_pos hb]
      rw [applyActiveWrites, h1, specTransitions, if_pos hb.symm, ih]
    · have h1 : weston_logind_set_active wl b
          = { wl with session_active := b,
                      session_signals := wl.session_signals ++ [b] } := by
        rw [set_active_char, if_neg hb]
      rw [applyActiveWrites, h1, specTransitions,
        if_neg (fun h => hb h.symm), ih]
      simp

/-- C6: `weston_logind_set_active` emits exactly one `session_signal` per
logical transition of the active flag: over any sequence of writes the
emitted notifications are exactly the logical transitions
(`specTransitions`), a write of the current value is a strict no-op, and
writing the same value twice emits at most one notification. -/
theorem set_active_one_signal_per_transition (wl : weston_logind)
    (ws : List Bool) (b : Bool) :
    (applyActiveWrites wl ws).session_signals
      = wl.session_signals ++ specTransitions wl.session_active ws
    ∧ weston_logind_set_active wl wl.session_active = wl
    ∧ (applyActiveWrites wl [b, b]).session_signals.length
        ≤ wl.session_signals.length + 1 := by
  refine ⟨applyActiveWrites_signals ws wl, ?_, ?_⟩
  · rw [set_active_char, if_pos rfl]
  · rw [applyActiveWrites_signals]
    have h : (specTransitions wl.session_active [b, b]).length ≤ 1 := by
      by_cases hb : b = wl.session_active <;> simp [specTransitions, hb]
    simp only [List.length_append]
    omega

/-- C1 counterexample: with `sync_drm` enabled, a delivered
`Active = false` value (here via a `PropertiesChanged` push signal) does
modify the active flag, contradicting the claim that no value delivered by
a property reply or push signal modifies the flag in synchronization
mode. -/
theorem sync_active_false_modifies_flag_cex :
    ((weston_logind.mk true true [] none []).sync_drm = true
      ∧ (weston_logind.mk true true [] none []).session_active = true)
    ∧ (property_changed (weston_logind.mk true true [] none [])
        ⟨true, true, true, true⟩ 0
        (some ⟨"org.freedesktop.login1.Session",
               [("Active", some false)], []⟩)).session_active = false :=
  ⟨⟨rfl, rfl⟩, rfl⟩

/-- C1 (amended): with `sync_drm` enabled, a delivered `Active = true`
value never modifies the flag (whether it arrives bare, via a
`PropertiesChanged` push signal, or via a property reply), while a
delivered `Active = false` value is applied directly; with `sync_drm`
disabled every delivered value is applied directly. -/
theorem parse_active_sync_rule (wl : weston_logind) (b : Bool)
    (env : GetActiveEnv) (fresh : Nat) (iface : String)
    (inv : List String) :
    parse_active { wl with sync_drm := true } (some true)
        = { wl with sync_drm := true }
    ∧ parse_active wl (some false) = weston_logind_set_active wl false
    ∧ parse_active { wl with sync_drm := false } (some b)
        = weston_logind_set_active { wl with sync_drm := false } b
    ∧ property_changed { wl with sync_drm := true } env fresh
        (some ⟨iface, [("Active", some true)], inv⟩)
        = { wl with sync_drm := true }
    ∧ get_active_cb { wl with sync_drm := true } (some (some true))
        = { wl with sync_drm := true, pending_active := none } := by
  refine ⟨?_, ?_, ?_, ?_, ?_⟩ <;>
    simp [parse_active, property_changed, findActive, get_active_cb]

/-- C2: with `sync_drm` enabled, a `PropertiesChanged` push signal
carrying `Active = true` leaves the state untouched, a ResumeDevice
notification for DRM_MAJOR (226) drives the flag to true, and a
ResumeDevice for any other major is ignored; with `sync_drm` disabled the
push signal alone drives the flag. -/
theorem sync_push_vs_resume (wl : weston_logind) (env : GetActiveEnv)
    (fresh : Nat) (iface : String) (inv : List String) (major : Nat)
    (hmaj : major ≠ DRM_MAJOR) :
    property_changed { wl with sync_drm := true } env fresh
        (some ⟨iface, [("Active", some true)], inv⟩)
        = { wl with sync_drm := true }
    ∧ device_resumed { wl with sync_drm := true } (some DRM_MAJOR)
        = weston_logind_set_active { wl with sync_drm := true } true
    ∧ device_resumed { wl with sync_drm := true } (some major)
        = { wl with sync_drm := true }
    ∧ property_changed { wl with sync_drm := false } env fresh
        (some ⟨iface, [("Active", some true)], inv⟩)
        = weston_logind_set_active { wl with sync_drm := false } true := by
  refine ⟨?_, ?_, ?_, ?_⟩ <;>
    simp [property_changed, findActive, parse_active, device_resumed, hmaj]

/-- Witness for C2 at a concrete state: major 13 is not DRM_MAJOR and its
resume notification is ignored in synchronization mode. -/
theorem sync_push_vs_resume_witness :
    (13 ≠ DRM_MAJOR)
    ∧ device_resumed ⟨true, false, [], none, []⟩ (some 13)
        = ⟨true, false, [], none, []⟩ := by
  refine ⟨by decide, ?_⟩
  have h := sync_push_vs_resume ⟨false, false, [], none, []⟩
      ⟨true, true, true, true⟩ 0 "i" [] 13 (by decide)
  exact h.2.2.1

/-- C5: when all allocation/registration steps succeed,
`weston_logind_get_active` leaves exactly the new call pending, a
previously pending call is cancelled and released, and two queries in
succession leave exactly the second one outstanding with the first
cancelled. -/
theorem get_active_single_pending (wl : weston_logind) (env : GetActiveEnv)
    (f1 f2 : Nat) (h1 : env.newCallOk = true) (h2 : env.appendOk = true)
    (h3 : env.sendOk = true) (h4 : env.setNotifyOk = true) :
    (weston_logind_get_active wl env f1).pending_active = some f1
    ∧ (∀ old, wl.pending_active = some old →
        old ∈ (weston_logind_get_active wl env f1).cancelled_calls)
    ∧ (weston_logind_get_active (weston_logind_get_active wl env f1) env
        f2).pending_active = some f2
    ∧ f1 ∈ (weston_logind_get_active (weston_logind_get_active wl env f1)
        env f2).cancelled_calls := by
  cases hp : wl.pending_active with
  | none => simp [weston_logind_get_active, h1, h2, h3, h4, hp]
  | some old => simp [weston_logind_get_active, h1, h2, h3, h4, hp]

/-- Witness for C5 at a concrete state with an already-pending call id 7:
two successive queries with ids 1 and 2 leave 2 pending and cancel 7 then
1. -/
theorem get_active_single_pending_witness :
    ((⟨true, true, true, true⟩ : GetActiveEnv).newCallOk = true
      ∧ (⟨true, true, true, true⟩ : GetActiveEnv).appendOk = true
      ∧ (⟨true, true, true, true⟩ : GetActiveEnv).sendOk = true
      ∧ (⟨true, true, true, true⟩ : GetActiveEnv).setNotifyOk = true)
    ∧ (weston_logind_get_active ⟨false, false, [], some 7, []⟩
        ⟨true, true, true, true⟩ 1).pending_active = some 1
    ∧ 7 ∈ (weston_logind_get_active ⟨false, false, [], some 7, []⟩
        ⟨true, true, true, true⟩ 1).cancelled_calls
    ∧ (weston_logind_get_active (weston_logind_get_active
        ⟨false, false, [], some 7, []⟩ ⟨true, true, true, true⟩ 1)
        ⟨true, true, true, true⟩ 2).pending_active = some 2
    ∧ 1 ∈ (weston_logind_get_active (weston_logind_get_active
        ⟨false, false, [], some 7, []⟩ ⟨true, true, true, true⟩ 1)
        ⟨true, true, true, true⟩ 2).cancelled_calls := by
  have h := get_active_single_pending ⟨false, false, [], some 7, []⟩
      ⟨true, true, true, true⟩ 1 2 rfl rfl rfl rfl
  exact ⟨⟨rfl, rfl, rfl, rfl⟩, h.1, h.2.1 7 rfl, h.2.2.1, h.2.2.2⟩

/-- C7: a well-formed PauseDevice notification of kind "pause" is
acknowledged with exactly one PauseDeviceComplete carrying the same
major/minor, for every device class; kinds "force" and "gone" (and
unparseable notifications) send no acknowledgment. -/
theorem device_paused_ack (wl : weston_logind) (major minor : Nat) :
    (device_paused wl (some (major, minor, "pause"))).2
        = [BusCall.pauseDeviceComplete major minor]
    ∧ (device_paused wl (some (major, minor, "force"))).2 = []
    ∧ (device_paused wl (some (major, minor, "gone"))).2 = []
    ∧ (device_paused wl none).2 = [] := by
  refine ⟨?_, ?_, ?_, rfl⟩ <;>
    simp [device_paused, weston_logind_pause_device_complete]

/-- C8: a release-signal event (signal number SIGRTMIN) issues exactly
one `VT_RELDISP, 1` ioctl and nothing else; an acquire-signal event
(SIGRTMIN + 1) issues exactly one `VT_RELDISP, VT_ACKACQ` ioctl and
nothing else; a short read issues nothing. -/
theorem signal_event_single_ack (vt s : Nat) :
    signal_event vt s (some s) = [SigEffect.vtReldisp vt 1]
    ∧ signal_event vt s (some (s + 1)) = [SigEffect.vtReldisp vt VT_ACKACQ]
    ∧ signal_event vt s none = [] := by
  refine ⟨?_, ?_, rfl⟩
  · simp [signal_event]
  · simp [signal_event]

/-- C4: when TakeDevice succeeded but the local `F_GETFL` or `F_SETFL`
adjustment fails, `weston_logind_open` fails, closes the descriptor and
issues a ReleaseDevice call for the same major/minor (no lease leak). -/
theorem open_releases_on_fcntl_failure (st : FileStat) (fd flags fl : Nat)
    (b : Bool) (hchr : st.isChr = true) :
    ((weston_logind_open ⟨some st, some fd, none, b⟩ flags).1 = none
      ∧ OpenEffect.closeFd fd
          ∈ (weston_logind_open ⟨some st, some fd, none, b⟩ flags).2
      ∧ OpenEffect.busReleaseDevice st.major st.minor
          ∈ (weston_logind_open ⟨some st, some fd, none, b⟩ flags).2)
    ∧ ((weston_logind_open ⟨some st, some fd, some fl, false⟩ flags).1 = none
      ∧ OpenEffect.closeFd fd
          ∈ (weston_logind_open ⟨some st, some fd, some fl, false⟩ flags).2
      ∧ OpenEffect.busReleaseDevice st.major st.minor
          ∈ (weston_logind_open ⟨some st, some fd, some fl, false⟩
              flags).2) := by
  simp [weston_logind_open, hchr]

/-- Witness for C4 on a character device 226:0, fd 3: both fcntl failure
modes close the fd and send ReleaseDevice. -/
theorem open_releases_on_fcntl_failure_witness :
    (⟨true, 226, 0⟩ : FileStat).isChr = true
    ∧ (weston_logind_open ⟨some ⟨true, 226, 0⟩, some 3, none, true⟩ 0).1
        = none
    ∧ OpenEffect.busReleaseDevice 226 0
        ∈ (weston_logind_open ⟨some ⟨true, 226, 0⟩, some 3, none, true⟩ 0).2
    ∧ OpenEffect.closeFd 3
        ∈ (weston_logind_open ⟨some ⟨true, 226, 0⟩, some 3, some 0, false⟩
            0).2 := by
  have h := open_releases_on_fcntl_failure ⟨true, 226, 0⟩ 3 0 0 true rfl
  exact ⟨rfl, h.1.1, h.1.2.2, h.2.2.1⟩

/-- C9 counterexample: a descriptor whose existing flags already contain
O_NONBLOCK (fl = 2048) opened with caller flags 0 succeeds and writes the
flags back with O_NONBLOCK still set, so the non-blocking flag of the
descriptor does not match the (cleared) non-blocking bit of the caller's
flags argument: the code only ever sets O_NONBLOCK, it never clears it. -/
theorem open_nonblock_not_cleared_cex :
    weston_logind_open ⟨some ⟨true, 226, 0⟩, some 7, some 2048, true⟩ 0
        = (some 7, [OpenEffect.busTakeDevice 226 0,
                    OpenEffect.setFlags 7 2048])
    ∧ (0 : Nat) &&& O_NONBLOCK = 0
    ∧ Nat.testBit 2048 11 = true := by
  refine ⟨rfl, rfl, by decide⟩

/-- C9 (amended): on every successful open, writing the flags back
changes at most the O_NONBLOCK bit (bit 11): every other bit is exactly
the value `F_GETFL` returned; when the caller does not request
O_NONBLOCK the flags are written back unchanged, and when it does the
O_NONBLOCK bit is set (never cleared). -/
theorem open_success_flag_adjustment (st : FileStat) (fd fl flags fl' : Nat)
    (hchr : st.isChr = true)
    (hmem : OpenEffect.setFlags fd fl'
      ∈ (weston_logind_open ⟨some st, some fd, some fl, true⟩ flags).2) :
    (∀ i, i ≠ 11 → fl'.testBit i = fl.testBit i)
    ∧ (flags &&& O_NONBLOCK = 0 → fl' = fl)
    ∧ (flags &&& O_NONBLOCK ≠ 0 → fl'.testBit 11 = true) := by
  simp [weston_logind_open, hchr] at hmem
  by_cases hc : flags &&& O_NONBLOCK = 0
  · rw [if_pos hc] at hmem
    subst hmem
    exact ⟨fun i _ => rfl, fun _ => rfl, fun h => absurd hc h⟩
  · rw [if_neg hc] at hmem
    subst hmem
    refine ⟨?_, fun h => absurd h hc, ?_⟩
    · intro i hi
      rw [Nat.testBit_lor]
      have h2 : Nat.testBit O_NONBLOCK i = false := by
        have e : (O_NONBLOCK : Nat) = 2 ^ 11 := by norm_num [O_NONBLOCK]
        rw [e, Nat.testBit_two_pow_of_ne (Ne.symm hi)]
      rw [h2, Bool.or_false]
    · intro _
      rw [Nat.testBit_lor]
      have h2 : Nat.testBit O_NONBLOCK 11 = true := by decide
      rw [h2, Bool.or_true]

/-- Witness for C9 (amended): fl = 0, caller requests O_NONBLOCK (2048);
the written flags agree with fl away from bit 11 and have bit 11 set. -/
theorem open_success_flag_adjustment_witness :
    (⟨true, 226, 0⟩ : FileStat).isChr = true
    ∧ OpenEffect.setFlags 7 2048
        ∈ (weston_logind_open ⟨some ⟨true, 226, 0⟩, some 7, some 0, true⟩
            2048).2
    ∧ Nat.testBit 2048 5 = Nat.testBit 0 5
    ∧ ((2048 : Nat) &&& O_NONBLOCK ≠ 0 ∧ Nat.testBit 2048 11 = true) := by
  have h := open_success_flag_adjustment ⟨true, 226, 0⟩ 7 0 2048 2048 rfl
      (by decide)
  exact ⟨rfl, by decide, h.1 5 (by decide), by decide, h.2.2 (by decide)⟩

/-- C10: `weston_logind_close` issues no ReleaseDevice call when fstat
fails or when the descriptor is not a character special device. -/
theorem close_no_release_on_bad_fd (st : FileStat)
    (hchr : st.isChr = false) :
    weston_logind_close none = []
    ∧ weston_logind_close (some st) = [] :=
  ⟨rfl, by simp [weston_logind_close, hchr]⟩

/-- Witness for C10 at a non-character device 4:1. -/
theorem close_no_release_on_bad_fd_witness :
    (⟨false, 4, 1⟩ : FileStat).isChr = false
    ∧ weston_logind_close none = []
    ∧ weston_logind_close (some ⟨false, 4, 1⟩) = [] := by
  have h := close_no_release_on_bad_fd ⟨false, 4, 1⟩ rfl
  exact ⟨rfl, h.1, h.2⟩

/-- C3 (code bug): when VT setup fails at the RT-signal-range check
(modelled with SIGRTMIN = SIGRTMAX = 34 so SIGRTMIN + 1 > SIGRTMAX) after
the keyboard was muted and the console switched to graphics mode, the
function returns the error directly without the unwind chain: the VT
descriptor (5) is not closed, text mode is not restored, and the saved
keyboard mode (2) is not restored — unlike a comparable later failure
(signalfd creation), which does unwind all prior steps. -/
theorem setup_vt_rt_check_skips_unwind :
    (weston_logind_setup_vt
        ⟨some 5, some (4, 1), some 2, true, true, true, 34, 34, some 9,
          true, true⟩).1 = Except.error VtErr.rtSignals
    ∧ (weston_logind_setup_vt
        ⟨some 5, some (4, 1), some 2, true, true, true, 34, 34, some 9,
          true, true⟩).2
        = [VtEffect.kdSkbMute 5 1, VtEffect.kdSetMode 5 KD_GRAPHICS]
    ∧ VtEffect.closeFd 5 ∉ (weston_logind_setup_vt
        ⟨some 5, some (4, 1), some 2, true, true, true, 34, 34, some 9,
          true, true⟩).2
    ∧ VtEffect.kdSetMode 5 KD_TEXT ∉ (weston_logind_setup_vt
        ⟨some 5, some (4, 1), some 2, true, true, true, 34, 34, some 9,
          true, true⟩).2
    ∧ VtEffect.kdSkbMode 5 2 ∉ (weston_logind_setup_vt
        ⟨some 5, some (4, 1), some 2, true, true, true, 34, 34, some 9,
          true, true⟩).2
    ∧ (weston_logind_setup_vt
        ⟨some 5, some (4, 1), some 2, true, true, true, 34, 64, none,
          true, true⟩).2
        = [VtEffect.kdSkbMute 5 1, VtEffect.kdSetMode 5 KD_GRAPHICS,
           VtEffect.kdSetMode 5 KD_TEXT, VtEffect.kdSkbMute 5 0,
           VtEffect.kdSkbMode 5 2, VtEffect.closeFd 5] := by
  refine ⟨rfl, rfl, by decide, by decide, by decide, rfl⟩
